import Mathlib

/-!
# Verification of the pathfinder session / replanning controller

Shallow embedding of `src/pathfinder.py` (class `PathfinderApp`): the
search-session state, `start_algorithm`, `step`, `reset`, and the wall-editing
event handlers of the main loop `run`.

The companion module `pathfinder_part1.py` (class `Grid`, the `ALGORITHMS`
mapping and the six generator-based strategies) is not part of the sources;
following the spec it is treated as an external collaborator:

* a strategy generator is modelled as the list of the Step Snapshots it has
  yet to yield (`next` = take the head, `StopIteration` = empty list);
* the `ALGORITHMS` mapping is an abstract parameter
  `ALG : String → Grid → List Snapshot` (each entry, applied to a grid,
  builds a fresh generator bound to that grid);
* `Grid.reset` and `Grid.toggle_wall` are modelled from the spec (§4.1),
  each marked `Modelled from the spec:` in its doc comment.

Python `set` fields (`frontier`, `explored`, `dynamic_walls`) are modelled as
`List` of coordinates: every claim about them only needs emptiness or
exact-value preservation, never set-theoretic operations.  Purely
presentational fields of `PathfinderApp` (fonts, buttons, `speed`, `last_t`,
`step_mode`, the pygame clock) are omitted: no claim mentions them, and the
session logic never reads them.
-/

/-- A grid coordinate `(row, col)`. -/
abbrev Pos := Nat × Nat

/-- Cell states of the grid: `EMPTY`, `WALL`, `START`, `TARGET` from
`pathfinder_part1.py` (spec §3). -/
inductive Cell where
  | empty : Cell
  | wall : Cell
  | start : Cell
  | target : Cell
deriving DecidableEq, Repr

/-- The grid object of `pathfinder_part1.py` as the spec describes it (§3):
a fixed-size 2D array of cell states plus cached start/target coordinates.
`grid` mirrors the Python field of the same name (`self.grid.grid[r][c]`). -/
structure Grid where
  rows : Nat
  cols : Nat
  grid : List (List Cell)
  start : Pos
  target : Pos
deriving DecidableEq, Repr

/-- Read the cell state at coordinate `p` (Python `self.grid.grid[r][c]`).
Out-of-range reads default to `empty`; the Python code only indexes with
in-range coordinates. -/
def cellAt (g : Grid) (p : Pos) : Cell :=
  (g.grid.getD p.1 []).getD p.2 Cell.empty

/-- Write cell state `v` at `(r, c)` (Python `self.grid.grid[r][c] = v`);
a no-op when out of range. -/
def setCell (g : Grid) (r c : Nat) (v : Cell) : Grid :=
  { g with grid := g.grid.set r ((g.grid.getD r []).set c v) }

/-- A Step Snapshot: the dictionary each strategy generator yields per step
(keys `frontier`, `explored`, `path`, `found`, `failed`, `message`;
spec §3). -/
structure Snapshot where
  frontier : List Pos
  explored : List Pos
  path : List Pos
  found : Bool
  failed : Bool
  message : String
deriving DecidableEq, Repr

/-- The search-session state of `PathfinderApp` (`__init__`, lines 130-154):
the live grid, the current generator, the copied snapshot fields, the
`running` flag, the algorithm name, the dynamic-wall set and the replan
counter. -/
structure AppState where
  grid : Grid
  generator : Option (List Snapshot)
  frontier : List Pos
  explored : List Pos
  path : List Pos
  found : Bool
  failed : Bool
  running : Bool
  message : String
  algo_name : String
  dynamic_walls : List Pos
  replan_count : Nat
deriving DecidableEq, Repr

/-- The initial session state built by `PathfinderApp.__init__` around a
freshly constructed grid `g`. -/
def initState (g : Grid) : AppState :=
  { grid := g
    generator := none
    frontier := []
    explored := []
    path := []
    found := false
    failed := false
    running := false
    message := "Select an algorithm and click its button."
    algo_name := ""
    dynamic_walls := []
    replan_count := 0 }

/-- The obstruction notice built in the replanning branch of `step`
(lines 407-408): the f-string
`"⚠ Path blocked! Re-planning… (#{self.replan_count})"`. -/
def obstructionMsg (n : Nat) : String :=
  "⚠ Path blocked! Re-planning… (#" ++ toString n ++ ")"

/-- The operation `start_algorithm` (lines 344-366): clear the previous results, remember
the algorithm name, build a fresh generator from `ALGORITHMS[name]` bound to
the live grid, and set `running := true`.  (The button-highlight updates are
presentational and not modelled.) -/
def start_algorithm (ALG : String → Grid → List Snapshot) (name : String)
    (s : AppState) : AppState :=
  { s with
    frontier := []
    explored := []
    path := []
    found := false
    failed := false
    dynamic_walls := []
    replan_count := 0
    algo_name := name
    message := "Running " ++ name ++ "…"
    generator := some (ALG name s.grid)
    running := true }

/-- Copy all fields of the pulled snapshot onto the session and advance the
generator (lines 377, 382-387). -/
def pullSnapshot (s : AppState) (st : Snapshot) (rest : List Snapshot) :
    AppState :=
  { s with
    generator := some rest
    frontier := st.frontier
    explored := st.explored
    path := st.path
    found := st.found
    failed := st.failed
    message := st.message }

/-- The scan of the `for pos in self.path` loop (lines 403-411): the first
coordinate of the path that is currently a Wall on the live grid, if any
(the loop `break`s at the first hit). -/
def firstBlocked (g : Grid) : List Pos → Option Pos
  | [] => none
  | p :: ps => if cellAt g p = Cell.wall then some p else firstBlocked g ps

/-- The replanning controller embedded in `step` (lines 402-411): if the
path is non-empty, `found` is false, and some path coordinate is a Wall,
increment `replan_count`, set the obstruction message, and replace the
generator with a fresh one from `ALGORITHMS[self.algo_name]` bound to the
live grid.  (At this point in `step`, `self.grid`, `self.algo_name` and
`self.replan_count` are unchanged since entry, so reading them from the
post-copy state `s` is faithful.) -/
def replanCheck (ALG : String → Grid → List Snapshot) (s : AppState) :
    AppState :=
  if s.path ≠ [] ∧ s.found = false then
    match firstBlocked s.grid s.path with
    | some _ =>
      { s with
        replan_count := s.replan_count + 1
        message := obstructionMsg (s.replan_count + 1)
        generator := some (ALG s.algo_name s.grid) }
    | none => s
  else s

/-- The terminal-flag check at the end of `step` (lines 413-416): when the
snapshot reported `found` or `failed`, stop running.  (The button
deactivation on those lines is presentational and not modelled.) -/
def finishFlags (s : AppState) : AppState :=
  if s.found = true ∨ s.failed = true then { s with running := false } else s

/-- The operation `step` (lines 371-416): return unchanged if no generator is active or
not running; set `running := false` on `StopIteration`; otherwise copy the
snapshot, run the dynamic-wall recording loop (lines 390-399, whose body is
`pass` — it has no effect and so does not appear), run the replanning check,
and finally clear `running` on a terminal snapshot. -/
def step (ALG : String → Grid → List Snapshot) (s : AppState) : AppState :=
  match s.generator with
  | none => s
  | some [] => if s.running = false then s else { s with running := false }
  | some (st :: rest) =>
    if s.running = false then s
    else finishFlags (replanCheck ALG (pullSnapshot s st rest))

/-- Modelled from the spec: `Grid.reset()` of `pathfinder_part1.py` is not
among the sources.  Per §4.1 it "regenerates the grid with a fresh random
wall layout at the configured density, preserving Start/Target positions",
deterministically given a seed; the fresh layout is the `layout` argument
(`layout p = true` means the random draw places a wall at `p`).  The
resulting cells depend only on the dimensions, the start/target positions
and `layout` — never on the previous cells. -/
def gridReset (g : Grid) (layout : Pos → Bool) : Grid :=
  { g with
    grid :=
      (List.range g.rows).map fun r =>
        (List.range g.cols).map fun c =>
          if (r, c) = g.start then Cell.start
          else if (r, c) = g.target then Cell.target
          else if layout (r, c) then Cell.wall
          else Cell.empty }

/-- Modelled from the spec: `Grid.toggle_wall(row, col)` of
`pathfinder_part1.py` is not among the sources.  Per §4.1 it "flips
Empty↔Wall at the given coordinate; no-op (or rejected) if the coordinate
equals Start or Target, or is out of bounds". -/
def toggle_wall (g : Grid) (r c : Nat) : Grid :=
  if (r, c) = g.start ∨ (r, c) = g.target ∨ ¬(r < g.rows ∧ c < g.cols) then g
  else
    match cellAt g (r, c) with
    | Cell.wall => setCell g r c Cell.empty
    | _ => setCell g r c Cell.wall

/-- The operation `reset` (lines 421-435): regenerate the grid and clear all session
state.  The fresh random layout drawn inside `Grid.reset` is the `layout`
argument. -/
def reset (layout : Pos → Bool) (s : AppState) : AppState :=
  { grid := gridReset s.grid layout
    generator := none
    frontier := []
    explored := []
    path := []
    found := false
    failed := false
    running := false
    message := "Grid reset. Choose an algorithm."
    algo_name := ""
    dynamic_walls := []
    replan_count := 0 }

/-- The algorithm-button handler in `run` (lines 476-479): `reset()` then
`start_algorithm(name)`. -/
def algoButtonClick (ALG : String → Grid → List Snapshot)
    (layout : Pos → Bool) (name : String) (s : AppState) : AppState :=
  start_algorithm ALG name (reset layout s)

/-- The left-click handler in `run` (lines 464-469): toggle the wall only
when not running.  (`pixel_to_cell` has already checked that `(r, c)` is in
range.) -/
def leftClickCell (s : AppState) (r c : Nat) : AppState :=
  if s.running = false then { s with grid := toggle_wall s.grid r c } else s

/-- The right-drag paint handler in `run` (lines 506-513): write a Wall at
`(r, c)` only when not running and the cell is neither Start nor Target. -/
def dragPaintCell (s : AppState) (r c : Nat) : AppState :=
  if s.running = false ∧ (r, c) ≠ s.grid.start ∧ (r, c) ≠ s.grid.target then
    { s with grid := setCell s.grid r c Cell.wall }
  else s

/-- The session-relevant events the main loop `run` can dispatch: a step of
the active algorithm (timer tick, Space key or the Next-Step button), a
click on an algorithm button, a reset (R key or the Reset-Grid button), a
left-click wall toggle, and a right-drag wall paint. -/
inductive Event where
  | step : Event
  | algoClick : String → (Pos → Bool) → Event
  | resetButton : (Pos → Bool) → Event
  | leftClick : Nat → Nat → Event
  | dragPaint : Nat → Nat → Event

/-- Dispatch one event exactly as `run` does. -/
def applyEvent (ALG : String → Grid → List Snapshot) (s : AppState) :
    Event → AppState
  | Event.step => step ALG s
  | Event.algoClick name layout => algoButtonClick ALG layout name s
  | Event.resetButton layout => reset layout s
  | Event.leftClick r c => leftClickCell s r c
  | Event.dragPaint r c => dragPaintCell s r c

/-- Events that neither start a new run nor reset the session: stepping and
the two wall-editing gestures. -/
def Event.isPassive : Event → Bool
  | Event.step => true
  | Event.leftClick _ _ => true
  | Event.dragPaint _ _ => true
  | _ => false

/-! ## Helper lemmas about the pieces of `step` -/

/-- Scanning a path that contains a blocked coordinate finds one. -/
theorem firstBlocked_isSome (g : Grid) (l : List Pos)
    (h : ∃ p ∈ l, cellAt g p = Cell.wall) :
    ∃ q, firstBlocked g l = some q := by
  induction l with
  | nil => simp at h
  | cons a t ih =>
    by_cases ha : cellAt g a = Cell.wall
    · exact ⟨a, by simp [firstBlocked, ha]⟩
    · obtain ⟨p, hp, hw⟩ := h
      rcases List.mem_cons.mp hp with rfl | hp'
      · exact absurd hw ha
      · obtain ⟨q, hq⟩ := ih ⟨p, hp', hw⟩
        exact ⟨q, by simp [firstBlocked, ha, hq]⟩

/-- Stepping with no active generator, or with `running = false`, is the
identity. -/
theorem step_noop_aux (ALG : String → Grid → List Snapshot) (s : AppState)
    (h : s.generator = none ∨ s.running = false) : step ALG s = s := by
  rcases h with h | h
  · unfold step; rw [h]
  · unfold step
    cases hg : s.generator with
    | none => rfl
    | some gen => cases gen <;> simp [h]

/-- Stepping an active, running session with a pending snapshot is the
pull / replan-check / terminal-flag pipeline. -/
theorem step_pull (ALG : String → Grid → List Snapshot) (s : AppState)
    (st : Snapshot) (rest : List Snapshot)
    (hg : s.generator = some (st :: rest)) (hr : s.running = true) :
    step ALG s = finishFlags (replanCheck ALG (pullSnapshot s st rest)) := by
  unfold step
  rw [hg]
  simp [hr]

/-- Stepping an exhausted generator only clears `running`. -/
theorem step_exhausted_aux (ALG : String → Grid → List Snapshot)
    (s : AppState) (hg : s.generator = some []) (hr : s.running = true) :
    step ALG s = { s with running := false } := by
  unfold step
  rw [hg]
  simp [hr]

/-- When the pulled snapshot has a blocked, non-empty, not-yet-found path,
the replanning branch fires and its effect is exactly: increment the
counter, set the obstruction message, install a fresh generator. -/
theorem replanCheck_fired (ALG : String → Grid → List Snapshot)
    (s : AppState) (hpath : s.path ≠ []) (hfound : s.found = false)
    (hwall : ∃ p ∈ s.path, cellAt s.grid p = Cell.wall) :
    replanCheck ALG s =
      { s with
        replan_count := s.replan_count + 1
        message := obstructionMsg (s.replan_count + 1)
        generator := some (ALG s.algo_name s.grid) } := by
  obtain ⟨q, hq⟩ := firstBlocked_isSome s.grid s.path hwall
  unfold replanCheck
  rw [if_pos ⟨hpath, hfound⟩, hq]

/-- The replanning branch cannot fire on a snapshot with `found = true`. -/
theorem replanCheck_found (ALG : String → Grid → List Snapshot)
    (s : AppState) (hfound : s.found = true) : replanCheck ALG s = s := by
  unfold replanCheck
  rw [if_neg]
  simp [hfound]

/-- The replanning branch never touches `running`. -/
theorem replanCheck_running (ALG : String → Grid → List Snapshot)
    (s : AppState) : (replanCheck ALG s).running = s.running := by
  unfold replanCheck
  split
  · split <;> rfl
  · rfl

/-- The replanning branch never touches `found`. -/
theorem replanCheck_found_eq (ALG : String → Grid → List Snapshot)
    (s : AppState) : (replanCheck ALG s).found = s.found := by
  unfold replanCheck
  split
  · split <;> rfl
  · rfl

/-- The replanning branch never touches `failed`. -/
theorem replanCheck_failed_eq (ALG : String → Grid → List Snapshot)
    (s : AppState) : (replanCheck ALG s).failed = s.failed := by
  unfold replanCheck
  split
  · split <;> rfl
  · rfl

/-- The replanning branch never touches `frontier`. -/
theorem replanCheck_frontier (ALG : String → Grid → List Snapshot)
    (s : AppState) : (replanCheck ALG s).frontier = s.frontier := by
  unfold replanCheck
  split
  · split <;> rfl
  · rfl

/-- The replanning branch never touches `explored`. -/
theorem replanCheck_explored (ALG : String → Grid → List Snapshot)
    (s : AppState) : (replanCheck ALG s).explored = s.explored := by
  unfold replanCheck
  split
  · split <;> rfl
  · rfl

/-- The replanning branch never touches `dynamic_walls`. -/
theorem replanCheck_dynamic_walls (ALG : String → Grid → List Snapshot)
    (s : AppState) : (replanCheck ALG s).dynamic_walls = s.dynamic_walls := by
  unfold replanCheck
  split
  · split <;> rfl
  · rfl

/-- The terminal-flag check never touches `replan_count`. -/
theorem finishFlags_replan_count (s : AppState) :
    (finishFlags s).replan_count = s.replan_count := by
  unfold finishFlags
  split <;> rfl

/-- The terminal-flag check never touches `message`. -/
theorem finishFlags_message (s : AppState) :
    (finishFlags s).message = s.message := by
  unfold finishFlags
  split <;> rfl

/-- The terminal-flag check never touches `generator`. -/
theorem finishFlags_generator (s : AppState) :
    (finishFlags s).generator = s.generator := by
  unfold finishFlags
  split <;> rfl

/-- The terminal-flag check never touches `frontier`. -/
theorem finishFlags_frontier (s : AppState) :
    (finishFlags s).frontier = s.frontier := by
  unfold finishFlags
  split <;> rfl

/-- The terminal-flag check never touches `explored`. -/
theorem finishFlags_explored (s : AppState) :
    (finishFlags s).explored = s.explored := by
  unfold finishFlags
  split <;> rfl

/-- The terminal-flag check never touches `found`. -/
theorem finishFlags_found (s : AppState) :
    (finishFlags s).found = s.found := by
  unfold finishFlags
  split <;> rfl

/-- The terminal-flag check never touches `dynamic_walls`. -/
theorem finishFlags_dynamic_walls (s : AppState) :
    (finishFlags s).dynamic_walls = s.dynamic_walls := by
  unfold finishFlags
  split <;> rfl

/-- After the terminal-flag check, `running` holds exactly when it held
before and the snapshot is not terminal. -/
theorem finishFlags_running (s : AppState) :
    (finishFlags s).running = (s.running && !(s.found || s.failed)) := by
  unfold finishFlags
  cases hf : s.found <;> cases hb : s.failed <;> simp [hf, hb]

/-- Stepping never touches `dynamic_walls` (the recording loop's body is
`pass`, and neither the replanning branch nor the terminal-flag check
mentions the field). -/
theorem step_dynamic_walls (ALG : String → Grid → List Snapshot)
    (s : AppState) : (step ALG s).dynamic_walls = s.dynamic_walls := by
  cases hg : s.generator with
  | none => rw [step_noop_aux ALG s (Or.inl hg)]
  | some gen =>
    cases hr : s.running with
    | false => rw [step_noop_aux ALG s (Or.inr hr)]
    | true =>
      cases gen with
      | nil => rw [step_exhausted_aux ALG s hg hr]
      | cons st rest =>
        rw [step_pull ALG s st rest hg hr, finishFlags_dynamic_walls,
          replanCheck_dynamic_walls]
        rfl

/-- No event ever puts a coordinate into `dynamic_walls`: each either
leaves the field unchanged or resets it to empty. -/
theorem applyEvent_dynamic_walls (ALG : String → Grid → List Snapshot)
    (s : AppState) (e : Event) (h : s.dynamic_walls = []) :
    (applyEvent ALG s e).dynamic_walls = [] := by
  cases e with
  | step =>
    show (step ALG s).dynamic_walls = []
    rw [step_dynamic_walls]
    exact h
  | algoClick name layout => rfl
  | resetButton layout => rfl
  | leftClick r c =>
    show (leftClickCell s r c).dynamic_walls = []
    unfold leftClickCell
    split <;> exact h
  | dragPaint r c =>
    show (dragPaintCell s r c).dynamic_walls = []
    unfold dragPaintCell
    split <;> exact h

/-- A passive event on a stopped session never restarts it and never
changes `replan_count` or `found`. -/
theorem passive_fixed (ALG : String → Grid → List Snapshot) (s : AppState)
    (e : Event) (hrun : s.running = false) (he : e.isPassive = true) :
    (applyEvent ALG s e).running = false ∧
    (applyEvent ALG s e).replan_count = s.replan_count ∧
    (applyEvent ALG s e).found = s.found := by
  cases e with
  | step =>
    show (step ALG s).running = false ∧ (step ALG s).replan_count = s.replan_count ∧
      (step ALG s).found = s.found
    rw [step_noop_aux ALG s (Or.inr hrun)]
    exact ⟨hrun, rfl, rfl⟩
  | algoClick name layout => simp [Event.isPassive] at he
  | resetButton layout => simp [Event.isPassive] at he
  | leftClick r c =>
    show (leftClickCell s r c).running = false ∧
      (leftClickCell s r c).replan_count = s.replan_count ∧
      (leftClickCell s r c).found = s.found
    unfold leftClickCell
    split <;> exact ⟨hrun, rfl, rfl⟩
  | dragPaint r c =>
    show (dragPaintCell s r c).running = false ∧
      (dragPaintCell s r c).replan_count = s.replan_count ∧
      (dragPaintCell s r c).found = s.found
    unfold dragPaintCell
    split <;> exact ⟨hrun, rfl, rfl⟩

/-- A sequence of passive events on a stopped session keeps it stopped and
keeps `replan_count` and `found` fixed. -/
theorem passive_fold (ALG : String → Grid → List Snapshot)
    (evs : List Event) :
    ∀ s : AppState, s.running = false → evs.all Event.isPassive = true →
      (evs.foldl (applyEvent ALG) s).running = false ∧
      (evs.foldl (applyEvent ALG) s).replan_count = s.replan_count ∧
      (evs.foldl (applyEvent ALG) s).found = s.found := by
  induction evs with
  | nil => intro s h _; exact ⟨h, rfl, rfl⟩
  | cons e t ih =>
    intro s h hall
    rw [List.all_cons, Bool.and_eq_true] at hall
    obtain ⟨hr1, hr2, hr3⟩ := passive_fixed ALG s e h hall.1
    obtain ⟨h1, h2, h3⟩ := ih (applyEvent ALG s e) hr1 hall.2
    simp only [List.foldl_cons]
    exact ⟨h1, h2.trans hr2, h3.trans hr3⟩

/-! ## Concrete instances for witnesses and counterexamples -/

/-- A concrete 2×2 grid: start `(0,0)`, target `(1,1)`, one wall at
`(0,1)`. -/
def g2 : Grid :=
  { rows := 2
    cols := 2
    grid := [[Cell.start, Cell.wall], [Cell.empty, Cell.target]]
    start := (0, 0)
    target := (1, 1) }

/-- A concrete algorithms table for closed evaluations: every strategy is
immediately exhausted.  (The session logic never inspects the table beyond
applying it.) -/
def ALGc : String → Grid → List Snapshot := fun _ _ => []

/-- A concrete wall layout for closed evaluations: no random walls. -/
def layoutC : Pos → Bool := fun _ => false

/-- A snapshot whose provisional path crosses the wall of `g2`. -/
def stC1 : Snapshot :=
  { frontier := [(1, 0)]
    explored := [(0, 0)]
    path := [(0, 0), (0, 1)]
    found := false
    failed := false
    message := "expanding" }

/-- A running session about to pull `stC1`. -/
def sC1 : AppState :=
  { initState g2 with
    generator := some [stC1]
    running := true
    algo_name := "BFS" }

/-- A snapshot with non-empty frontier and explored sets and a blocked
provisional path. -/
def stC2 : Snapshot :=
  { frontier := [(1, 0)]
    explored := [(0, 0)]
    path := [(0, 1)]
    found := false
    failed := false
    message := "expanding" }

/-- A running session about to pull `stC2`. -/
def sC2 : AppState :=
  { initState g2 with
    generator := some [stC2]
    running := true
    algo_name := "DFS" }

/-- A running session whose generator is already exhausted. -/
def sC3 : AppState :=
  { initState g2 with
    generator := some []
    running := true
    algo_name := "UCS"
    frontier := [(1, 0)]
    explored := [(0, 0)]
    path := [(0, 0)]
    message := "mid-run"
    replan_count := 3 }

/-- A terminal-failure snapshot that still reports a (blocked) best-effort
path. -/
def stC4 : Snapshot :=
  { frontier := []
    explored := [(0, 0)]
    path := [(0, 1)]
    found := false
    failed := true
    message := "no path"}

/-- A running session about to pull `stC4`. -/
def sC4 : AppState :=
  { initState g2 with
    generator := some [stC4]
    running := true
    algo_name := "DLS" }

/-- A success snapshot for the witness of the running-flag rule. -/
def stC4w : Snapshot :=
  { frontier := []
    explored := [(0, 0), (1, 0)]
    path := [(0, 0), (1, 0), (1, 1)]
    found := true
    failed := false
    message := "target reached" }

/-- A running session about to pull `stC4w`. -/
def sC4w : AppState :=
  { initState g2 with
    generator := some [stC4w]
    running := true
    algo_name := "BFS" }

/-! ## The claims -/

/-- C1: for every call to `step()` whose pulled snapshot has a non-empty
path and `found = false`, if any coordinate of that path is currently a
Wall on the live grid, then `step()` increments `replan_count` by exactly
1, sets `message` to an obstruction notice containing the new
`replan_count` value, and replaces the generator with a fresh one built
from `ALGORITHMS[algo_name]` applied to the same grid. -/
theorem C1_step_replans_on_blocked_path (ALG : String → Grid → List Snapshot)
    (s : AppState) (st : Snapshot) (rest : List Snapshot)
    (hg : s.generator = some (st :: rest)) (hr : s.running = true)
    (hpath : st.path ≠ []) (hfound : st.found = false)
    (hwall : ∃ p ∈ st.path, cellAt s.grid p = Cell.wall) :
    (step ALG s).replan_count = s.replan_count + 1 ∧
    (step ALG s).message = obstructionMsg (s.replan_count + 1) ∧
    (∃ a b : String,
      (step ALG s).message = a ++ toString (s.replan_count + 1) ++ b) ∧
    (step ALG s).generator = some (ALG s.algo_name s.grid) := by
  have hfired := replanCheck_fired ALG (pullSnapshot s st rest)
    (by simpa [pullSnapshot] using hpath)
    (by simpa [pullSnapshot] using hfound)
    (by simpa [pullSnapshot] using hwall)
  rw [step_pull ALG s st rest hg hr, hfired]
  refine ⟨?_, ?_, ?_, ?_⟩
  · rw [finishFlags_replan_count]
    simp [pullSnapshot]
  · rw [finishFlags_message]
    simp [pullSnapshot]
  · refine ⟨"⚠ Path blocked! Re-planning… (#", ")", ?_⟩
    rw [finishFlags_message]
    simp [pullSnapshot, obstructionMsg]
  · rw [finishFlags_generator]
    simp [pullSnapshot]

/-- Witness for C1 at a concrete blocked path. -/
theorem C1_witness :
    (sC1.generator = some [stC1] ∧ sC1.running = true ∧ stC1.path ≠ [] ∧
      stC1.found = false ∧ (∃ p ∈ stC1.path, cellAt sC1.grid p = Cell.wall)) ∧
    (step ALGc sC1).replan_count = sC1.replan_count + 1 ∧
    (step ALGc sC1).message = obstructionMsg (sC1.replan_count + 1) ∧
    (∃ a b : String,
      (step ALGc sC1).message = a ++ toString (sC1.replan_count + 1) ++ b) ∧
    (step ALGc sC1).generator = some (ALGc sC1.algo_name sC1.grid) :=
  ⟨⟨rfl, rfl, by decide, rfl, by decide⟩,
    C1_step_replans_on_blocked_path ALGc sC1 stC1 [] rfl rfl (by decide) rfl
      (by decide)⟩

/-- C2, counterexample: a replan-triggering `step()` does NOT leave the
session's `explored`/`frontier` empty of old-strategy state — it keeps the
sets copied from the discarded strategy's last snapshot.  Here the replan
fires (`replan_count` goes 0 → 1, the generator is replaced), yet
`explored` and `frontier` still hold the discarded strategy's coordinates. -/
theorem C2_counterexample :
    (step ALGc sC2).replan_count = sC2.replan_count + 1 ∧
    (step ALGc sC2).generator = some (ALGc sC2.algo_name sC2.grid) ∧
    (step ALGc sC2).explored = [(0, 0)] ∧
    (step ALGc sC2).frontier = [(1, 0)] ∧
    ¬((step ALGc sC2).explored = [] ∧ (step ALGc sC2).frontier = []) := by
  decide

/-- C2, amended: the advance that triggers a replan replaces the generator
with a fresh strategy built from `ALGORITHMS[algo_name]` on the live grid
(so the restarted search itself carries no explored/frontier state), but
the session's `explored` and `frontier` fields are not cleared: after that
`step()` returns they still hold exactly the sets copied from the discarded
strategy's last snapshot. -/
theorem C2_replan_keeps_copied_sets (ALG : String → Grid → List Snapshot)
    (s : AppState) (st : Snapshot) (rest : List Snapshot)
    (hg : s.generator = some (st :: rest)) (hr : s.running = true)
    (hpath : st.path ≠ []) (hfound : st.found = false)
    (hwall : ∃ p ∈ st.path, cellAt s.grid p = Cell.wall) :
    (step ALG s).replan_count = s.replan_count + 1 ∧
    (step ALG s).explored = st.explored ∧
    (step ALG s).frontier = st.frontier ∧
    (step ALG s).generator = some (ALG s.algo_name s.grid) := by
  have hfired := replanCheck_fired ALG (pullSnapshot s st rest)
    (by simpa [pullSnapshot] using hpath)
    (by simpa [pullSnapshot] using hfound)
    (by simpa [pullSnapshot] using hwall)
  rw [step_pull ALG s st rest hg hr, hfired]
  refine ⟨?_, ?_, ?_, ?_⟩
  · rw [finishFlags_replan_count]
    simp [pullSnapshot]
  · rw [finishFlags_explored]
    simp [pullSnapshot]
  · rw [finishFlags_frontier]
    simp [pullSnapshot]
  · rw [finishFlags_generator]
    simp [pullSnapshot]

/-- Witness for the amended C2 at a concrete blocked path. -/
theorem C2_witness :
    (sC2.generator = some [stC2] ∧ sC2.running = true ∧ stC2.path ≠ [] ∧
      stC2.found = false ∧ (∃ p ∈ stC2.path, cellAt sC2.grid p = Cell.wall)) ∧
    (step ALGc sC2).replan_count = sC2.replan_count + 1 ∧
    (step ALGc sC2).explored = stC2.explored ∧
    (step ALGc sC2).frontier = stC2.frontier ∧
    (step ALGc sC2).generator = some (ALGc sC2.algo_name sC2.grid) :=
  ⟨⟨rfl, rfl, by decide, rfl, by decide⟩,
    C2_replan_keeps_copied_sets ALGc sC2 stC2 [] rfl rfl (by decide) rfl
      (by decide)⟩

/-- C3: a `step()` on an already-exhausted generator sets `running = false`
and returns without raising; `frontier`, `explored`, `path`, `found`,
`failed`, `message`, `algo_name`, `replan_count`, `dynamic_walls` and the
grid are all left unchanged. -/
theorem C3_step_exhausted_stops_quietly (ALG : String → Grid → List Snapshot)
    (s : AppState) (hg : s.generator = some []) (hr : s.running = true) :
    (step ALG s).running = false ∧
    (step ALG s).frontier = s.frontier ∧
    (step ALG s).explored = s.explored ∧
    (step ALG s).path = s.path ∧
    (step ALG s).found = s.found ∧
    (step ALG s).failed = s.failed ∧
    (step ALG s).message = s.message ∧
    (step ALG s).algo_name = s.algo_name ∧
    (step ALG s).replan_count = s.replan_count ∧
    (step ALG s).dynamic_walls = s.dynamic_walls ∧
    (step ALG s).grid = s.grid := by
  rw [step_exhausted_aux ALG s hg hr]
  exact ⟨rfl, rfl, rfl, rfl, rfl, rfl, rfl, rfl, rfl, rfl, rfl⟩

/-- Witness for C3 on a concrete exhausted session. -/
theorem C3_witness :
    (sC3.generator = some [] ∧ sC3.running = true) ∧
    (step ALGc sC3).running = false ∧
    (step ALGc sC3).frontier = sC3.frontier ∧
    (step ALGc sC3).explored = sC3.explored ∧
    (step ALGc sC3).path = sC3.path ∧
    (step ALGc sC3).found = sC3.found ∧
    (step ALGc sC3).failed = sC3.failed ∧
    (step ALGc sC3).message = sC3.message ∧
    (step ALGc sC3).algo_name = sC3.algo_name ∧
    (step ALGc sC3).replan_count = sC3.replan_count ∧
    (step ALGc sC3).dynamic_walls = sC3.dynamic_walls ∧
    (step ALGc sC3).grid = sC3.grid :=
  ⟨⟨rfl, rfl⟩, C3_step_exhausted_stops_quietly ALGc sC3 rfl rfl⟩

/-- C4, counterexample: a snapshot with `failed = true`, a non-empty path
and a Wall on that path makes the replanning branch fire
(`replan_count` goes 0 → 1) and still ends the step with
`running = false` — refuting "after a step in which the replanning branch
fired, running remains true" as universally stated. -/
theorem C4_counterexample :
    (step ALGc sC4).replan_count = sC4.replan_count + 1 ∧
    (step ALGc sC4).running = false := by
  decide

/-- C4, amended: after any `step()` that pulls a snapshot, `running` is
false exactly when the snapshot has `found = true` or `failed = true`; in
particular a replan-firing step (which requires `found = false`) leaves
`running = true` provided the snapshot's `failed` flag is also false. -/
theorem C4_running_iff_not_terminal (ALG : String → Grid → List Snapshot)
    (s : AppState) (st : Snapshot) (rest : List Snapshot)
    (hg : s.generator = some (st :: rest)) (hr : s.running = true) :
    (step ALG s).running = (!(st.found || st.failed)) := by
  rw [step_pull ALG s st rest hg hr, finishFlags_running,
    replanCheck_running, replanCheck_found_eq, replanCheck_failed_eq]
  simp [pullSnapshot, hr]

/-- Witness for the amended C4 on a concrete success snapshot. -/
theorem C4_witness :
    (sC4w.generator = some [stC4w] ∧ sC4w.running = true) ∧
    (step ALGc sC4w).running = (!(stC4w.found || stC4w.failed)) :=
  ⟨⟨rfl, rfl⟩, C4_running_iff_not_terminal ALGc sC4w stC4w [] rfl rfl⟩

/-- A success snapshot used to exercise the post-`found` freeze. -/
def stC5 : Snapshot :=
  { frontier := []
    explored := [(0, 0), (1, 0)]
    path := [(0, 0), (1, 0), (1, 1)]
    found := true
    failed := false
    message := "target reached" }

/-- A running session about to pull `stC5`. -/
def sC5 : AppState :=
  { initState g2 with
    generator := some [stC5]
    running := true
    algo_name := "Bidir"
    replan_count := 2 }

/-- C5: the replanning check never fires on a step whose snapshot has
`found = true` — that step keeps `replan_count`, merely advances (does not
replace) the generator, and sets `running = false`; and from then on any
sequence of steps and wall-edit events (everything short of starting a new
run or resetting) leaves `replan_count` unchanged and `found` true. -/
theorem C5_found_never_replans (ALG : String → Grid → List Snapshot)
    (s : AppState) (st : Snapshot) (rest : List Snapshot)
    (hg : s.generator = some (st :: rest)) (hr : s.running = true)
    (hf : st.found = true) :
    (step ALG s).replan_count = s.replan_count ∧
    (step ALG s).generator = some rest ∧
    (step ALG s).running = false ∧
    (step ALG s).found = true ∧
    ∀ evs : List Event, evs.all Event.isPassive = true →
      (evs.foldl (applyEvent ALG) (step ALG s)).replan_count =
        s.replan_count ∧
      (evs.foldl (applyEvent ALG) (step ALG s)).found = true := by
  have hquiet := replanCheck_found ALG (pullSnapshot s st rest)
    (by simpa [pullSnapshot] using hf)
  have hstep : step ALG s = { pullSnapshot s st rest with running := false } := by
    rw [step_pull ALG s st rest hg hr, hquiet]
    unfold finishFlags
    rw [if_pos (Or.inl (by simpa [pullSnapshot] using hf))]
  have h1 : (step ALG s).replan_count = s.replan_count := by
    rw [hstep]; simp [pullSnapshot]
  have h3 : (step ALG s).running = false := by rw [hstep]
  have h4 : (step ALG s).found = true := by
    rw [hstep]; simpa [pullSnapshot] using hf
  refine ⟨h1, by rw [hstep]; rfl, h3, h4, ?_⟩
  intro evs hall
  obtain ⟨-, hc, hfd⟩ := passive_fold ALG evs (step ALG s) h3 hall
  exact ⟨hc.trans h1, hfd.trans h4⟩

/-- Witness for C5: a concrete success step followed by a step, a wall
toggle and a wall paint. -/
theorem C5_witness :
    (sC5.generator = some [stC5] ∧ sC5.running = true ∧ stC5.found = true) ∧
    (step ALGc sC5).replan_count = sC5.replan_count ∧
    (step ALGc sC5).running = false ∧
    ([Event.step, Event.leftClick 1 0, Event.dragPaint 0 1].foldl
        (applyEvent ALGc) (step ALGc sC5)).replan_count = sC5.replan_count :=
  ⟨⟨rfl, rfl, rfl⟩,
    (C5_found_never_replans ALGc sC5 stC5 [] rfl rfl rfl).1,
    (C5_found_never_replans ALGc sC5 stC5 [] rfl rfl rfl).2.2.1,
    ((C5_found_never_replans ALGc sC5 stC5 [] rfl rfl rfl).2.2.2.2
      [Event.step, Event.leftClick 1 0, Event.dragPaint 0 1] rfl).1⟩

/-- C6: `step()` is a no-op whenever no generator is active or
`running = false`: the whole state, grid included, is unchanged. -/
theorem C6_step_noop_when_inactive (ALG : String → Grid → List Snapshot)
    (s : AppState) (h : s.generator = none ∨ s.running = false) :
    step ALG s = s :=
  step_noop_aux ALG s h

/-- Witness for C6 on the freshly initialized session (no generator). -/
theorem C6_witness : step ALGc (initState g2) = initState g2 :=
  C6_step_noop_when_inactive ALGc (initState g2) (Or.inl rfl)

/-- C7: for every state and algorithm name, `start_algorithm(name)` leaves
`frontier`/`explored` empty, the path empty, `found`/`failed` false,
`dynamic_walls` empty, `replan_count = 0`, `algo_name = name`, installs a
fresh generator built from `ALGORITHMS[name]` bound to the live (unchanged)
grid, and sets `running = true`. -/
theorem C7_start_algorithm_resets (ALG : String → Grid → List Snapshot)
    (name : String) (s : AppState) :
    (start_algorithm ALG name s).frontier = [] ∧
    (start_algorithm ALG name s).explored = [] ∧
    (start_algorithm ALG name s).path = [] ∧
    (start_algorithm ALG name s).found = false ∧
    (start_algorithm ALG name s).failed = false ∧
    (start_algorithm ALG name s).dynamic_walls = [] ∧
    (start_algorithm ALG name s).replan_count = 0 ∧
    (start_algorithm ALG name s).algo_name = name ∧
    (start_algorithm ALG name s).generator = some (ALG name s.grid) ∧
    (start_algorithm ALG name s).grid = s.grid ∧
    (start_algorithm ALG name s).running = true :=
  ⟨rfl, rfl, rfl, rfl, rfl, rfl, rfl, rfl, rfl, rfl, rfl⟩

/-- C8: `dynamic_walls` is always empty.  It starts empty, `reset()` and
`start_algorithm()` re-empty it, and no event ever adds to it — the
wall-recording loop in `step()` is a no-op — so along every event sequence
from the initial state the set stays empty (and hence no cell is ever
classified as a dynamic wall). -/
theorem C8_dynamic_walls_always_empty (ALG : String → Grid → List Snapshot)
    (g : Grid) (evs : List Event) :
    (evs.foldl (applyEvent ALG) (initState g)).dynamic_walls = [] := by
  have main : ∀ l : List Event, ∀ s : AppState, s.dynamic_walls = [] →
      (l.foldl (applyEvent ALG) s).dynamic_walls = [] := by
    intro l
    induction l with
    | nil => intro s h; exact h
    | cons e t ih =>
      intro s h
      exact ih (applyEvent ALG s e) (applyEvent_dynamic_walls ALG s e h)
  exact main evs (initState g) rfl

/-- Regenerating a grid ignores its previous cells: two grids agreeing on
dimensions and start/target reset identically under the same layout. -/
theorem gridReset_congr (g h : Grid) (layout : Pos → Bool)
    (hrows : g.rows = h.rows) (hcols : g.cols = h.cols)
    (hstart : g.start = h.start) (htarget : g.target = h.target) :
    gridReset g layout = gridReset h layout := by
  unfold gridReset
  rw [Grid.mk.injEq]
  exact ⟨hrows, hcols, by rw [hrows, hcols, hstart, htarget], hstart, htarget⟩

/-- C9: clicking an algorithm button runs `reset()` (regenerating the grid
with a fresh layout) before `start_algorithm(name)`, so walls placed on the
previous grid never persist into the new run: replacing the pre-click grid
by any other grid with the same dimensions and start/target (e.g. one with
extra user-placed walls) yields the identical post-click state. -/
theorem C9_algo_click_ignores_prior_walls
    (ALG : String → Grid → List Snapshot) (layout : Pos → Bool)
    (name : String) (s : AppState) (gAlt : Grid)
    (hrows : gAlt.rows = s.grid.rows) (hcols : gAlt.cols = s.grid.cols)
    (hstart : gAlt.start = s.grid.start) (htarget : gAlt.target = s.grid.target) :
    algoButtonClick ALG layout name { s with grid := gAlt } =
      algoButtonClick ALG layout name s := by
  unfold algoButtonClick
  have hreset : reset layout { s with grid := gAlt } = reset layout s := by
    unfold reset
    rw [AppState.mk.injEq]
    refine ⟨?_, rfl, rfl, rfl, rfl, rfl, rfl, rfl, rfl, rfl, rfl, rfl⟩
    exact gridReset_congr gAlt s.grid layout hrows hcols hstart htarget
  rw [hreset]

/-- Witness for C9: painting a wall at `(1, 0)` before the click does not
change the state the click produces. -/
theorem C9_witness :
    ((setCell g2 1 0 Cell.wall).rows = (initState g2).grid.rows ∧
      (setCell g2 1 0 Cell.wall).cols = (initState g2).grid.cols ∧
      (setCell g2 1 0 Cell.wall).start = (initState g2).grid.start ∧
      (setCell g2 1 0 Cell.wall).target = (initState g2).grid.target) ∧
    algoButtonClick ALGc layoutC "BFS"
        { initState g2 with grid := setCell g2 1 0 Cell.wall } =
      algoButtonClick ALGc layoutC "BFS" (initState g2) :=
  ⟨⟨rfl, rfl, rfl, rfl⟩,
    C9_algo_click_ignores_prior_walls ALGc layoutC "BFS" (initState g2)
      (setCell g2 1 0 Cell.wall) rfl rfl rfl rfl⟩

/-- C10: the left-click toggle and the right-drag paint mutate the grid
only when `running = false` (while a search runs both are no-ops), and the
drag-paint write is additionally skipped on the Start and Target cells, so
it never sets either to Wall. -/
theorem C10_ui_edits_gated (s : AppState) (r c : Nat) :
    (s.running = true → leftClickCell s r c = s ∧ dragPaintCell s r c = s) ∧
    ((r, c) = s.grid.start ∨ (r, c) = s.grid.target →
      dragPaintCell s r c = s) := by
  constructor
  · intro h
    constructor
    · unfold leftClickCell
      rw [if_neg]
      simp [h]
    · unfold dragPaintCell
      rw [if_neg]
      simp [h]
  · intro h
    unfold dragPaintCell
    rw [if_neg]
    rintro ⟨-, h1, h2⟩
    rcases h with h | h
    · exact h1 h
    · exact h2 h

/-- A running session used to exercise the wall-edit gating. -/
def sC10 : AppState :=
  { initState g2 with
    generator := some []
    running := true
    algo_name := "IDDFS" }

/-- Witness for C10: edits on a running session are no-ops, and drag-paint
on the Start cell is a no-op even when stopped. -/
theorem C10_witness :
    sC10.running = true ∧
    (leftClickCell sC10 1 0 = sC10 ∧ dragPaintCell sC10 1 0 = sC10) ∧
    ((1, 1) = (initState g2).grid.target ∧
      dragPaintCell (initState g2) 1 1 = initState g2) :=
  ⟨rfl, (C10_ui_edits_gated sC10 1 0).1 rfl,
    ⟨rfl, (C10_ui_edits_gated (initState g2) 1 1).2 (Or.inr rfl)⟩⟩
